import Mathlib

/-!
Verification of the Axpert inverter protocol client (`axpert.py`, `entities.py`).

Bytes are modelled as `Nat` values (< 256 wherever the source produces them),
byte strings as `List Nat`.  Pure helpers of the source become Lean functions;
the I/O performed by `Axpert._sendRequest` is made explicit as a trace of
channel events, with the device's successive reads supplied as data.
-/

namespace Axpert

/-! ### Checksum codec

`crcmod.predefined.mkCrcFun("xmodem")`: CRC-16/XMODEM — polynomial 0x1021,
initial value 0, no reflection, no final XOR, MSB first. -/

/-- One shift step of the MSB-first CRC-16 with polynomial 0x1021 (= 4129). -/
def crcBitStep (c : Nat) : Nat :=
  (if 32768 ≤ c then Nat.xor (c * 2) 4129 else c * 2) % 65536

/-- Feed one input byte into the CRC state: XOR into the high byte, then
eight shift steps. -/
def crcByteStep (c b : Nat) : Nat :=
  crcBitStep^[8] ((Nat.xor c (b * 256)) % 65536)

/-- CRC-16/XMODEM of a byte sequence, initial value 0. -/
def crc_xmodem (bs : List Nat) : Nat :=
  bs.foldl crcByteStep 0

theorem crcBitStep_lt (c : Nat) : crcBitStep c < 65536 :=
  Nat.mod_lt _ (by norm_num)

theorem crcByteStep_lt (c b : Nat) : crcByteStep c b < 65536 := by
  unfold crcByteStep
  rw [show (8 : Nat) = 7 + 1 from rfl, Function.iterate_succ_apply']
  exact crcBitStep_lt _

theorem crc_xmodem_lt (bs : List Nat) : crc_xmodem bs < 65536 := by
  unfold crc_xmodem
  have h : ∀ (l : List Nat) (c : Nat), c < 65536 → l.foldl crcByteStep c < 65536 := by
    intro l
    induction l with
    | nil => intro c hc; exact hc
    | cons b t ih => intro c _; exact ih _ (crcByteStep_lt c b)
  exact h bs 0 (by norm_num)

/-- `bytes.replace(old, new)` for a single-byte pattern: replace every byte
equal to `old` by `new`. -/
def replaceByte (old new : Nat) (bs : List Nat) : List Nat :=
  bs.map (fun b => if b = old then new else b)

/-- The combined effect of the two sequential replaces in `_calcCRC`:
0x0d (13) becomes 0x0e (14) and 0x28 (40) becomes 0x29 (41). -/
def escByte (b : Nat) : Nat :=
  if b = 13 then 14 else if b = 40 then 41 else b

/-- `Axpert._calcCRC` (axpert.py, lines 217-270).  `unhexlify` of the hex
string of the CRC, zero-padded to an even number of digits, is the minimal
big-endian byte encoding: one byte when the CRC is below 0x100, two bytes
otherwise (the CRC is always below 0x10000, see `crc_xmodem_lt`).  Then the
two reserved bytes are bumped by one, and the result is left-padded with a
zero byte if it is a single byte. -/
def calcCRC (val : List Nat) : List Nat :=
  let c := crc_xmodem val
  let crc_h : List Nat := if c < 256 then [c] else [c / 256, c % 256]
  let crc := replaceByte 40 41 (replaceByte 13 14 crc_h)
  if crc.length = 1 then 0 :: crc else crc

theorem esc_comp (b : Nat) :
    (if (if b = 13 then 14 else b) = 40 then 41 else (if b = 13 then 14 else b))
      = escByte b := by
  unfold escByte
  by_cases h13 : b = 13
  · simp [h13]
  · by_cases h40 : b = 40 <;> simp [h13, h40]

/-- The checksum as actually produced: the two big-endian CRC bytes, each
escaped independently. -/
theorem calcCRC_eq (val : List Nat) :
    calcCRC val = [escByte (crc_xmodem val / 256), escByte (crc_xmodem val % 256)] := by
  unfold calcCRC replaceByte
  set c := crc_xmodem val with hc
  by_cases h : c < 256
  · have hdiv : c / 256 = 0 := Nat.div_eq_of_lt h
    have hmod : c % 256 = c := Nat.mod_eq_of_lt h
    simp only [h, if_true, List.map, List.length, if_pos rfl, hdiv, hmod]
    rw [esc_comp]
    rfl
  · simp only [h, if_false, List.map, List.length]
    rw [esc_comp, esc_comp]
    rfl

theorem calcCRC_length (val : List Nat) : (calcCRC val).length = 2 := by
  rw [calcCRC_eq]; rfl

/-- C1: for every byte sequence, `_calcCRC` returns exactly the 2-byte
big-endian CRC-16/XMODEM of the input with each of the two checksum bytes
post-processed independently (13 ↦ 14, 40 ↦ 41, others unchanged); the result
has length exactly 2 (the high byte is the zero left-pad when the CRC is
below 0x100), and the substitution touches only the checksum bytes, never
the input. -/
theorem calcCRC_escaped_bigendian_crc16 (val : List Nat) :
    calcCRC val = [escByte (crc_xmodem val / 256), escByte (crc_xmodem val % 256)] ∧
    (calcCRC val).length = 2 :=
  ⟨calcCRC_eq val, calcCRC_length val⟩

/-! ### Response validation

The validation tail of `Axpert._sendRequest` (axpert.py, lines 362-400),
applied to the accumulated response after trailing `\x00` bytes have been
stripped.  The source returns `None` on failure, logging a distinct message
for each branch; we expose the branch as a failure value. -/

/-- The distinct validation failure branches of `_sendRequest`:
a response not ending in `\r` (line 370) or a checksum mismatch (line 379). -/
inductive RespFailure
  | noTerminator
  | checksumMismatch
deriving DecidableEq

/-- The validation steps of `_sendRequest` on the accumulated response:
check and strip the trailing `\r` (13); recompute the checksum over all but
the last two remaining bytes and compare with those two bytes; then strip
the checksum.  The start-marker comparison on line 394 only logs on
mismatch — the first byte is stripped unconditionally and the remainder
returned.  (On a response where the checksum strip leaves nothing, the
source's `response[0]` would raise `IndexError`; that point is unreachable
for the frames considered here, whose body is nonempty.) -/
def validateResponse (resp : List Nat) : Except RespFailure (List Nat) :=
  if resp.getLast? ≠ some 13 then .error .noTerminator
  else if resp.dropLast.drop (resp.dropLast.length - 2)
            ≠ calcCRC (resp.dropLast.take (resp.dropLast.length - 2)) then
    .error .checksumMismatch
  else .ok ((resp.dropLast.take (resp.dropLast.length - 2)).drop 1)

deriving instance DecidableEq for Except

theorem validateResponse_concat (m : List Nat) :
    validateResponse (m ++ [13]) =
      if m.drop (m.length - 2) ≠ calcCRC (m.take (m.length - 2)) then
        .error .checksumMismatch
      else .ok ((m.take (m.length - 2)).drop 1) := by
  simp [validateResponse, List.getLast?_concat, List.dropLast_concat]

/-- A well-formed frame `body ++ calcCRC body ++ [13]` always validates,
yielding the body with its first byte stripped. -/
theorem validate_frame_ok (body : List Nat) :
    validateResponse (body ++ calcCRC body ++ [13]) = .ok (body.drop 1) := by
  rw [validateResponse_concat]
  have hlen : (body ++ calcCRC body).length - 2 = body.length := by
    simp [List.length_append, calcCRC_length]
  rw [hlen, List.drop_left, List.take_left]
  simp

/-- Setting an index to a value different from the one it holds changes
the list. -/
theorem set_ne_of_ne {α : Type} (l : List α) (j : Nat) (v : α)
    (hj : j < l.length) (hv : v ≠ l[j]) : l.set j v ≠ l := by
  intro h
  have h2 := congrArg (fun t => t[j]?) h
  simp only [List.getElem?_set_self hj, List.getElem?_eq_getElem hj] at h2
  exact hv (Option.some.inj h2)

/-- C2 (amended): take a valid frame `body ++ calcCRC body ++ [13]` and
mutate a single byte at an index other than the final terminator.  If the
index lies in the body, assume in addition that the escaped checksum of the
mutated body differs from the stored one (the escaping step is lossy, so
for certain bodies a single-byte corruption leaves the escaped checksum
unchanged and validation passes).  Then validation fails with the
checksum-mismatch branch.  Mutating the terminator instead fails the
terminator check, not the checksum check. -/
theorem validate_mutation_checksum (body : List Nat) (i v : Nat)
    (hi : i < body.length + 2)
    (hv : v ≠ (body ++ calcCRC body).getD i 0)
    (hcol : i < body.length → calcCRC (body.set i v) ≠ calcCRC body) :
    validateResponse ((body ++ calcCRC body ++ [13]).set i v)
      = .error .checksumMismatch := by
  have hclen : (calcCRC body).length = 2 := calcCRC_length body
  have hilt : i < (body ++ calcCRC body).length := by
    simp only [List.length_append, hclen]; omega
  have hset : ((body ++ calcCRC body) ++ [13]).set i v
      = ((body ++ calcCRC body).set i v) ++ [13] := by
    rw [List.set_append, if_pos hilt]
  rw [hset, validateResponse_concat]
  have hmlen : ((body ++ calcCRC body).set i v).length - 2 = body.length := by
    simp only [List.length_set, List.length_append, hclen]; omega
  rw [hmlen]
  by_cases hib : i < body.length
  · have hsplit : (body ++ calcCRC body).set i v = body.set i v ++ calcCRC body := by
      rw [List.set_append, if_pos hib]
    have hlenset : body.length = (body.set i v).length := (List.length_set body i v).symm
    rw [hsplit, hlenset, List.drop_left, List.take_left]
    have hne := hcol hib
    rw [if_pos (Ne.symm hne)]
  · have hsplit : (body ++ calcCRC body).set i v
        = body ++ (calcCRC body).set (i - body.length) v := by
      rw [List.set_append, if_neg hib]
    rw [hsplit, List.drop_left, List.take_left]
    have hj : i - body.length < (calcCRC body).length := by omega
    have hvj : v ≠ (calcCRC body)[i - body.length] := by
      intro hvv
      apply hv
      rw [List.getD_eq_getElem _ _ hilt,
        List.getElem_append_right (Nat.le_of_not_lt hib)]
      exact hvv
    rw [if_pos (set_ne_of_ne _ _ _ hj hvj)]

/-- C2 (counterexample to the claim as stated): on the valid frame for body
`[40, 81]`, mutating the single final byte — the terminator — fails the
terminator check, not with a checksum mismatch. -/
theorem validate_terminator_mutation_cex :
    validateResponse (([40, 81] ++ calcCRC [40, 81] ++ [13]).set 4 65)
        = .error .noTerminator ∧
    validateResponse (([40, 81] ++ calcCRC [40, 81] ++ [13]).set 4 65)
        ≠ .error .checksumMismatch := by
  constructor
  · decide
  · decide

/-- Witness for `validate_mutation_checksum`: mutating byte 0 of the valid
frame for body `[40, 81]` (the start marker, 40 ↦ 41) is detected as a
checksum mismatch. -/
theorem validate_mutation_checksum_witness :
    0 < ([40, 81] : List Nat).length + 2 ∧
    (41 : Nat) ≠ ([40, 81] ++ calcCRC [40, 81]).getD 0 0 ∧
    validateResponse ((([40, 81] : List Nat) ++ calcCRC [40, 81] ++ [13]).set 0 41)
      = .error .checksumMismatch :=
  ⟨by decide, by decide,
    validate_mutation_checksum [40, 81] 0 41 (by decide) (by decide)
      (fun _ => by decide)⟩

/-- C4 (amended): a response that passes the terminator and checksum checks
but whose first remaining byte is not the start marker 0x28 is *not*
rejected: the mismatch is only logged, the first byte is stripped
unconditionally, and the remaining payload is returned.  (Stated for an
arbitrary first byte `b`; the start-marker comparison has no effect on the
result.) -/
theorem validate_startmarker_not_fatal (b : Nat) (rest : List Nat) :
    validateResponse ((b :: rest) ++ calcCRC (b :: rest) ++ [13]) = .ok rest := by
  simpa using validate_frame_ok (b :: rest)

/-- C4 (counterexample to the claim as stated): the frame with body
`[88, 65]` (first byte `'X'` = 88 ≠ 40) passes terminator and checksum
checks, and validation *yields the payload* `[65]` instead of failing. -/
theorem validate_startmarker_mismatch_cex :
    (88 : Nat) ≠ 40 ∧
    validateResponse ([88, 65] ++ calcCRC [88, 65] ++ [13]) = .ok [65] := by
  constructor
  · decide
  · decide

/-! ### Frame building and chunked transmission

`_sendRequest` builds `request ++ crc ++ b"\r"` and writes it in chunks of
`TX_CHUNK_SZ = 8` bytes; a chunk equal to the bare terminator `b"\r"` is
padded to `b"\r\x00"` before the write (axpert.py, lines 296-330). -/

/-- The outbound wire frame: request bytes, escaped checksum, terminator. -/
def buildFrame (request : List Nat) : List Nat :=
  request ++ calcCRC request ++ [13]

/-- The successive chunks written by the transmit loop: 8-byte slices of the
frame, with a slice equal to `[13]` (the bare terminator) replaced by
`[13, 0]`. -/
def txChunks (frame : List Nat) : List (List Nat) :=
  if frame = [] then []
  else (if frame.take 8 = [13] then [13, 0] else frame.take 8) :: txChunks (frame.drop 8)
termination_by frame.length
decreasing_by
  simp only [List.length_drop]
  have : frame.length ≠ 0 := fun h0 => by
    simp_all [List.length_eq_zero]
  omega

theorem txChunks_nil : txChunks [] = [] := by
  rw [txChunks]
  simp

theorem txChunks_ne_nil (frame : List Nat) (h : frame ≠ []) : txChunks frame ≠ [] := by
  rw [txChunks]
  simp [h]

/-- No chunk written is ever the bare terminator byte. -/
theorem txChunks_no_bare_terminator (frame : List Nat) :
    ∀ c ∈ txChunks frame, c ≠ [13] := by
  have key : ∀ (n : Nat) (fr : List Nat), fr.length ≤ n → ∀ c ∈ txChunks fr, c ≠ [13] := by
    intro n
    induction n with
    | zero =>
      intro fr hlen c hc
      have : fr = [] := List.length_eq_zero.mp (Nat.le_zero.mp hlen)
      subst this
      rw [txChunks_nil] at hc
      exact absurd hc (List.not_mem_nil c)
    | succ n ih =>
      intro fr hlen c hc
      by_cases hfr : fr = []
      · subst hfr
        rw [txChunks_nil] at hc
        exact absurd hc (List.not_mem_nil c)
      · rw [txChunks, if_neg hfr] at hc
        rcases List.mem_cons.mp hc with hhd | htl
        · subst hhd
          by_cases hp : fr.take 8 = [13]
          · simp [hp]
          · simp [hp]
        · have hfrlen : 1 ≤ fr.length := by
            cases fr with
            | nil => exact absurd rfl hfr
            | cons a t => simp
          exact ih (fr.drop 8) (by simp [List.length_drop]; omega) c htl
  exact key frame.length frame (Nat.le_refl _)

theorem getLast?_drop_of_lt {α : Type} (l : List α) (n : Nat) (h : n < l.length) :
    (l.drop n).getLast? = l.getLast? := by
  rw [List.getLast?_eq_getElem?, List.getLast?_eq_getElem?, List.getElem?_drop,
    List.length_drop]
  congr 1
  omega

/-- When the frame length is ≡ 1 (mod 8) and the frame ends in the
terminator, the final transmitted chunk is the padded `[13, 0]`. -/
theorem txChunks_last_chunk :
    ∀ (n : Nat) (frame : List Nat), frame.length ≤ n → frame.length % 8 = 1 →
      frame.getLast? = some 13 → (txChunks frame).getLast? = some [13, 0] := by
  intro n
  induction n with
  | zero =>
    intro frame hlen hmod _
    have : frame.length = 0 := Nat.le_zero.mp hlen
    omega
  | succ n ih =>
    intro frame hlen hmod hlast
    by_cases h1 : frame.length = 1
    · obtain ⟨a, ha⟩ := List.length_eq_one.mp h1
      subst ha
      have ha13 : a = 13 := by simpa using hlast
      subst ha13
      rw [txChunks]
      simp [txChunks_nil]
    · have h9 : 9 ≤ frame.length := by omega
      have hfr : frame ≠ [] := by
        intro h
        rw [h] at h9
        simp at h9
      rw [txChunks, if_neg hfr]
      have hrest : txChunks (frame.drop 8) ≠ [] := by
        apply txChunks_ne_nil
        intro h
        have := congrArg List.length h
        simp only [List.length_drop, List.length_nil] at this
        omega
      obtain ⟨c, t, hct⟩ := List.exists_cons_of_ne_nil hrest
      rw [hct, List.getLast?_cons_cons, ← hct]
      apply ih
      · simp only [List.length_drop]; omega
      · simp only [List.length_drop]; omega
      · rw [getLast?_drop_of_lt _ _ (by omega)]
        exact hlast

/-- C5: for every outbound frame whose length is ≡ 1 (mod 8) — so the final
8-byte slice is the bare terminator — the final chunk actually written is
the padded 2-byte sequence `[13, 0]`, and no chunk written is ever the bare
single byte `[13]`. -/
theorem chunking_pads_bare_terminator (request : List Nat)
    (h : (buildFrame request).length % 8 = 1) :
    (txChunks (buildFrame request)).getLast? = some [13, 0] ∧
    ∀ c ∈ txChunks (buildFrame request), c ≠ [13] := by
  refine ⟨?_, txChunks_no_bare_terminator _⟩
  apply txChunks_last_chunk (buildFrame request).length _ (Nat.le_refl _) h
  show ((request ++ calcCRC request) ++ [13]).getLast? = some 13
  rw [List.getLast?_concat]

/-- Witness for `chunking_pads_bare_terminator` at the 6-byte request
`"QPIGS2"` (frame length 9). -/
theorem chunking_pads_bare_terminator_witness :
    (buildFrame [81, 80, 73, 71, 83, 50]).length % 8 = 1 ∧
    ((txChunks (buildFrame [81, 80, 73, 71, 83, 50])).getLast? = some [13, 0] ∧
      ∀ c ∈ txChunks (buildFrame [81, 80, 73, 71, 83, 50]), c ≠ [13]) :=
  ⟨by simp [buildFrame, calcCRC_length],
    chunking_pads_bare_terminator [81, 80, 73, 71, 83, 50]
      (by simp [buildFrame, calcCRC_length])⟩

/-! ### The request/response cycle as an explicit event trace

`_sendRequest` (axpert.py, lines 272-400).  The device is modelled by the
list of byte chunks its successive `os.read` calls return; the channel
traffic is recorded as a trace of events.  Write errors (`OSError`) and the
timeout alarm are environmental; the timeout is modelled by the device's
read list running out before a terminator byte is seen, which makes the
cycle return `None` as the raised exception does in the source. -/

/-- One channel I/O action performed by the request/response cycle. -/
inductive ChanEvent
  | write (chunk : List Nat)
  | read (bytes : List Nat)
deriving DecidableEq

/-- `bytes.rstrip(b"\x00")`: drop trailing zero bytes. -/
def stripTrailingZeros (bs : List Nat) : List Nat :=
  (bs.reverse.dropWhile (· = 0)).reverse

/-- The read loop of `_sendRequest`: accumulate chunks until one contains
the terminator byte 13, then strip trailing zero padding.  Running out of
chunks models the 10-second alarm firing (`TimeoutError` → `None`). -/
def readLoop : List (List Nat) → List Nat → Option (List Nat) × List ChanEvent
  | [], _ => (none, [])
  | r :: rest, acc =>
    if 13 ∈ r then (some (stripTrailingZeros (acc ++ r)), [ChanEvent.read r])
    else
      let next := readLoop rest (acc ++ r)
      (next.1, ChanEvent.read r :: next.2)

/-- One full request/response cycle of `_sendRequest`: refuse if the port
is not open; otherwise write the frame in chunks, run the read loop, and
validate the accumulated response.  Every failure (timeout or validation)
yields `none`, as the source returns `None`. -/
def sendRequest (port : Option Nat) (request : List Nat) (reads : List (List Nat)) :
    Option (List Nat) × List ChanEvent :=
  match port with
  | none => (none, [])
  | some _ =>
    let writes := (txChunks (buildFrame request)).map ChanEvent.write
    let rl := readLoop reads []
    let payload : Option (List Nat) :=
      match rl.1 with
      | none => none
      | some resp =>
        match validateResponse resp with
        | .error _ => none
        | .ok p => some p
    (payload, writes ++ rl.2)

/-- C10: calling `_sendRequest` with the port not open performs no channel
I/O and returns `None` (the source logs and returns before touching the
device; no exception is raised). -/
theorem sendRequest_closed_port_no_io (request : List Nat) (reads : List (List Nat)) :
    sendRequest none request reads = (none, []) :=
  rfl

/-- With an open port the trace always begins with the frame's write
chunks; in particular it is nonempty. -/
theorem sendRequest_open_trace (p : Nat) (request : List Nat) (reads : List (List Nat)) :
    (sendRequest (some p) request reads).2
      = (txChunks (buildFrame request)).map ChanEvent.write ++ (readLoop reads []).2 :=
  rfl

theorem buildFrame_ne_nil (request : List Nat) : buildFrame request ≠ [] := by
  unfold buildFrame
  simp

theorem sendRequest_open_trace_ne_nil (p : Nat) (request : List Nat)
    (reads : List (List Nat)) : (sendRequest (some p) request reads).2 ≠ [] := by
  rw [sendRequest_open_trace]
  intro h
  rcases List.append_eq_nil.mp h with ⟨h1, _⟩
  exact txChunks_ne_nil _ (buildFrame_ne_nil request) (List.map_eq_nil_iff.mp h1)

/-! ### Entity registry (`entities.py`)

Each entity is the relevant projection of the source's per-entity dict:
its value-coercion rule (`fmt`, absent for flag and warning-indicator
entities), its unit label (`none` models both an absent `"unit"` key and an
explicit `None`, which the source treats identically via
`.get("unit", False)` and truthiness), its single-letter device flag, and
its declared warning-indicator position `warn_ind`.  The human-facing
`desc`/`prog` strings are display-only and not modelled. -/

/-- The value-coercion rules appearing in `ENTITIES[...]["fmt"]`. -/
inductive Fmt
  | fstr                                 -- `str`
  | fint                                 -- `int`
  | ffloat                               -- `float`
  | fenum (opts : List String)           -- `lambda v: (...)[int(v)]`
  | fenumMap (m : List (String × String)) -- `lambda v: {...}[v]`
  | fdash                                -- `lambda v: v if v == "-" else int(v)`
  | fboolInt                             -- `lambda v: bool(int(v))`
  | fdevMode                             -- `lambda v: DEVICE_MODE.get(v) or f"Unknown {v}"`
deriving DecidableEq

structure EntDef where
  fmt : Option Fmt
  unit : Option String
  flag : Option Char
  warn_ind : Option Nat
deriving DecidableEq

/-- Entry builder: coercion rule, unit label, flag letter, warning index. -/
def ent (fmt : Option Fmt) (unit : Option String) (flag : Option Char)
    (w : Option Nat) : EntDef :=
  ⟨fmt, unit, flag, w⟩

/-- `DEVICE_MODE` lookup table for QMOD. -/
def DEVICE_MODE : List (String × String) :=
  [("P", "Power on mode"), ("S", "Standby mode"), ("L", "Line Mode"),
   ("B", "Battery mode"), ("F", "Fault mode"), ("H", "Power saving Mode")]

/-- The `ENTITIES` table, in source order (entities.py, lines 125-486). -/
def ENTITIES : List (String × EntDef) :=
  [("dev_prot_id", ent (some .fstr) none none none),
   ("dev_serial", ent (some .fstr) none none none),
   ("fw_ver", ent (some .fstr) none none none),
   ("fw2_ver", ent (some .fstr) none none none),
   ("grid_rate_v", ent (some .ffloat) (some "V") none none),
   ("grid_rate_c", ent (some .ffloat) (some "A") none none),
   ("ac_out_rate_v", ent (some .ffloat) (some "V") none none),
   ("ac_out_rate_f", ent (some .ffloat) (some "Hz") none none),
   ("ac_out_rate_c", ent (some .ffloat) (some "A") none none),
   ("ac_out_rate_apar_p", ent (some .fint) (some "VA") none none),
   ("ac_out_rate_act_p", ent (some .fint) (some "W") none none),
   ("bat_rate_v", ent (some .ffloat) (some "V") none none),
   ("bat_util_fb_v", ent (some .ffloat) (some "V") none none),
   ("bat_und_v", ent (some .ffloat) (some "V") none none),
   ("bat_bulk_v", ent (some .ffloat) (some "V") none none),
   ("bat_flt_v", ent (some .ffloat) (some "V") none none),
   ("bat_type", ent (some (.fenum ["AGM", "Flooded", "User"])) none none none),
   ("ac_chg_max_c", ent (some .fint) (some "A") none none),
   ("chg_max_c", ent (some .fint) (some "A") none none),
   ("ac_in_range_v", ent (some (.fenum ["Appliance", "UPS"])) none none none),
   ("out_src_pri", ent (some (.fenum ["Utility 1st", "Solar 1st", "SBU 1st"])) none none none),
   ("chg_src_pri",
     ent (some (.fenum ["Utility 1st", "Solar 1st", "Sol+Util", "Sol Only"])) none none none),
   ("para_max_num", ent (some .fdash) none none none),
   ("inv_type",
     ent (some (.fenumMap [("00", "Grid tie"), ("01", "Off grid"), ("10", "Hybrid")]))
       none none none),
   ("topology", ent (some (.fenum ["No Transformer", "Transformer"])) none none none),
   ("out_mode",
     ent (some (.fenum ["Single", "Parallel", "Ph1/3", "Ph2/3", "Ph3/3"])) none none none),
   ("bar_ret_v", ent (some .ffloat) (some "V") none none),
   ("pv_para_ok", ent (some (.fenum ["PV on one", "PV on all"])) none none none),
   ("pv_p_bal", ent (some (.fenum ["PV max C", "PV max sum P"])) none none none),
   ("alarm_act", ent none none (some 'a') none),
   ("ovrl_bypass", ent none none (some 'b') none),
   ("pwr_save", ent none none (some 'j') none),
   ("lcd_rtn", ent none none (some 'k') none),
   ("ovrl_rstrt", ent none none (some 'u') none),
   ("ovr_tmp_rstrt", ent none none (some 'v') none),
   ("back_light", ent none none (some 'x') none),
   ("alrm_pri_src_off", ent none none (some 'y') none),
   ("flt_code_rec", ent none none (some 'z') none),
   ("grid_v", ent (some .ffloat) (some "V") none none),
   ("grid_f", ent (some .ffloat) (some "Hz") none none),
   ("ac_out_v", ent (some .ffloat) (some "V") none none),
   ("ac_out_f", ent (some .ffloat) (some "Hz") none none),
   ("ac_out_apar_p", ent (some .fint) (some "VA") none none),
   ("ac_out_act_p", ent (some .fint) (some "W") none none),
   ("out_load_perc", ent (some .fint) (some "%") none none),
   ("bus_v", ent (some .fint) (some "V") none none),
   ("bat_v", ent (some .ffloat) (some "V") none none),
   ("bat_chg_c", ent (some .ffloat) (some "A") none none),
   ("bat_cap", ent (some .fint) (some "%") none none),
   ("inv_temp", ent (some .fint) (some "Â°C") none none),
   ("pv_bat_cur", ent (some .fint) (some "A") none none),
   ("pv_in_v", ent (some .ffloat) (some "V") none none),
   ("bat_v_scc", ent (some .ffloat) (some "V") none none),
   ("bat_dchg_c", ent (some .fint) (some "A") none none),
   ("dev_stat", ent (some .fstr) none none none),
   ("pv_power", ent (some .fint) (some "W") none none),
   ("unkwn_1", ent (some .fstr) none none none),
   ("unkwn_2", ent (some .fstr) none none none),
   ("unkwn_3", ent (some .fstr) none none none),
   ("dev_mode", ent (some .fdevMode) none none none),
   ("wi_res1", ent none none none (some 0)),
   ("wi_inv_fault", ent none none none (some 1)),
   ("wi_bus_ovr", ent none none none (some 2)),
   ("wi_bus_und", ent none none none (some 3)),
   ("wi_bus_soft_fail", ent none none none (some 4)),
   ("wi_line_fail", ent none none none (some 5)),
   ("wi_opv_short", ent none none none (some 6)),
   ("wi_inv_v_lo", ent none none none (some 7)),
   ("wi_inv_v_hi", ent none none none (some 8)),
   ("wi_ovr_temp", ent none none none (some 9)),
   ("wi_fan_lock", ent none none none (some 10)),
   ("wi_bat_v_hi", ent none none none (some 11)),
   ("wi_lo_alrm", ent none none none (some 12)),
   ("wi_res2", ent none none none (some 13)),
   ("wi_bat_und_off", ent none none none (some 14)),
   ("wi_res3", ent none none none (some 28)),
   ("wi_ovr_load", ent none none none (some 16)),
   ("wi_eeprom_fault", ent none none none (some 17)),
   ("wi_inv_ovr_c", ent none none none (some 18)),
   ("wi_inv_soft_fail", ent none none none (some 19)),
   ("wi_self_tst_fail", ent none none none (some 20)),
   ("wi_op_dc_v_ovr", ent none none none (some 21)),
   ("wi_bat_open", ent none none none (some 22)),
   ("wi_c_sen_fail", ent none none none (some 23)),
   ("wi_bat_short", ent none none none (some 24)),
   ("wi_pwr_limit", ent none none none (some 25)),
   ("wi_pv_v_hi", ent none none none (some 26)),
   ("wi_mppt_ovr_f", ent none none none (some 27)),
   ("wi_mppt_ovr_w", ent none none none (some 28)),
   ("wi_bat_2_lo", ent none none none (some 29)),
   ("wi_res4", ent none none none (some 30)),
   ("wi_res5", ent none none none (some 31)),
   ("chg_float_v", ent (some .ffloat) (some "V") none none),
   ("chg_bulk_v", ent (some .ffloat) (some "V") none none),
   ("alarm_en", ent (some .fboolInt) none none none),
   ("pwr_save_en", ent (some .fboolInt) none none none),
   ("ovld_rstr_en", ent (some .fboolInt) none none none),
   ("ovr_temp_rstr_en", ent (some .fboolInt) none none none),
   ("lcd_blght_en", ent (some .fboolInt) none none none),
   ("alrm_pri_src_int_en", ent (some .fboolInt) none none none),
   ("flt_code_rec_en", ent (some .fboolInt) none none none),
   ("ovrl_bypass_en", ent (some .fboolInt) none none none),
   ("lcd_rtn_en", ent (some .fboolInt) none none none)]

/-! ### Value coercion (the Value Formatter) -/

/-- The typed values produced by the coercion rules.  A parsed float keeps
its accepted literal verbatim — only acceptance of the literal is
modelled, not float arithmetic. -/
inductive Value
  | vStr (s : String)
  | vInt (n : Int)
  | vFloat (lit : String)
  | vBool (b : Bool)
deriving DecidableEq

def digitsToNat (cs : List Char) : Nat :=
  cs.foldl (fun n c => n * 10 + (c.toNat - 48)) 0

/-- Python `int(s)` on an optional sign followed by decimal digits.
(Surrounding whitespace and digit-group underscores, which the device
never produces, are not modelled.) -/
def pyInt (s : String) : Option Int :=
  match s.data with
  | '-' :: rest =>
    if rest ≠ [] ∧ rest.all Char.isDigit then some (-(digitsToNat rest : Int)) else none
  | '+' :: rest =>
    if rest ≠ [] ∧ rest.all Char.isDigit then some ((digitsToNat rest : Int)) else none
  | cs =>
    if cs ≠ [] ∧ cs.all Char.isDigit then some ((digitsToNat cs : Int)) else none

/-- Acceptance of Python `float(s)` on the decimal forms
`[sign] (digits [. digits] | . digits)`.  (Exponent, `inf`/`nan`,
whitespace and underscore forms, never produced by the device, are not
modelled.) -/
def pyFloatOk (s : String) : Bool :=
  let cs :=
    match s.data with
    | '-' :: rest => rest
    | '+' :: rest => rest
    | cs => cs
  let ip := cs.takeWhile Char.isDigit
  match cs.dropWhile Char.isDigit with
  | [] => ip ≠ []
  | '.' :: frac => frac.all Char.isDigit ∧ (ip ≠ [] ∨ frac ≠ [])
  | _ => false

/-- Python sequence indexing with an `int` index: non-negative indexes from
the front, negative from the back, out of range is an error. -/
def pyTupleIndex (opts : List String) (i : Int) : Option String :=
  if 0 ≤ i then opts[i.toNat]?
  else if 0 ≤ (opts.length : Int) + i then opts[((opts.length : Int) + i).toNat]?
  else none

/-- Apply one coercion rule to one raw field; `.error` is the rule raising
(`ValueError`, `IndexError` or `KeyError`). -/
def applyFmt : Fmt → String → Except Unit Value
  | .fstr, v => .ok (.vStr v)
  | .fint, v =>
    match pyInt v with
    | some n => .ok (.vInt n)
    | none => .error ()
  | .ffloat, v => if pyFloatOk v then .ok (.vFloat v) else .error ()
  | .fenum opts, v =>
    match pyInt v with
    | some i =>
      match pyTupleIndex opts i with
      | some s => .ok (.vStr s)
      | none => .error ()
    | none => .error ()
  | .fenumMap m, v =>
    match m.lookup v with
    | some s => .ok (.vStr s)
    | none => .error ()
  | .fdash, v =>
    if v = "-" then .ok (.vStr "-")
    else
      match pyInt v with
      | some n => .ok (.vInt n)
      | none => .error ()
  | .fboolInt, v =>
    match pyInt v with
    | some n => .ok (.vBool (n != 0))
    | none => .error ()
  | .fdevMode, v =>
    .ok (.vStr (match DEVICE_MODE.lookup v with
      | some s => s
      | none => "Unknown " ++ v))

/-- `f"{val}"` as used by the unit-annotation step.  Exact for the values
produced by `applyFmt` on device fields (a float literal is rendered
verbatim, which matches `str(float(lit))` for the normalized literals the
device sends). -/
def renderValue : Value → String
  | .vStr s => s
  | .vInt n => toString n
  | .vFloat lit => lit
  | .vBool b => if b then "True" else "False"

/-- The formatting loop of `Axpert.query` (axpert.py, lines 435-447): each
zipped (key, raw-field) pair is coerced via the entity's `fmt` rule, a unit
suffix is appended when requested and available, and the first exception
aborts the whole loop carrying the offending key (the source wraps it in
`RuntimeError(f"Error formatting entity {k}")`). -/
def formatEntries (add_units : Bool) :
    List (String × String) → Except String (List (String × Value))
  | [] => .ok []
  | (k, v) :: rest =>
    match ENTITIES.lookup k with
    | none => .error k
    | some e =>
      match e.fmt with
      | none => .error k
      | some f =>
        match applyFmt f v with
        | .error _ => .error k
        | .ok val =>
          let val' :=
            match e.unit with
            | some u => if add_units then Value.vStr (renderValue val ++ u) else val
            | none => val
          match formatEntries add_units rest with
          | .error k2 => .error k2
          | .ok m => .ok ((k, val') :: m)

theorem formatEntries_length (u : Bool) (l : List (String × String))
    (m : List (String × Value)) (h : formatEntries u l = .ok m) :
    m.length = l.length := by
  induction l generalizing m with
  | nil =>
    simp only [formatEntries] at h
    cases h
    rfl
  | cons kv rest ih =>
    obtain ⟨k, v⟩ := kv
    simp only [formatEntries] at h
    rcases hl : ENTITIES.lookup k with _ | e
    · simp only [hl] at h; cases h
    · simp only [hl] at h
      rcases hf : e.fmt with _ | f
      · simp only [hf] at h; cases h
      · simp only [hf] at h
        rcases ha : applyFmt f v with _ | val
        · simp only [ha] at h; cases h
        · simp only [ha] at h
          rcases hr : formatEntries u rest with _ | m2
          · simp only [hr] at h; cases h
          · simp only [hr, Except.ok.injEq] at h
            subst h
            simp [ih m2 hr]

/-! ### Custom decoders (`parseDeviceFlags`, `parseWarnState`)

Both source functions iterate over their argument with `for v in x`; when
`query` hands them a single string the items are its characters, when it
hands them a list of fields the items are whole strings.  Both cases are
modelled uniformly over a list of string tokens. -/

/-- Python dict assignment `m[k] = v`: overwrite in place, else append. -/
def dictSet {α : Type} : List (String × α) → String → α → List (String × α)
  | [], k, v => [(k, v)]
  | (k0, v0) :: rest, k, v =>
    if k0 = k then (k0, v) :: rest else (k0, v0) :: dictSet rest k v

/-- The `flag_key` table: flag letter (as a 1-character token) → entity key,
built from the `ENTITIES` entries carrying a `flag`. -/
def flagKey : List (String × String) :=
  ENTITIES.filterMap (fun e =>
    match e.2.flag with
    | some c => some (Char.toString c, e.1)
    | none => none)

/-- The loop of `parseDeviceFlags`: `E`/`D` tokens set the state, any other
token must be a known flag letter (else `RuntimeError`), and maps its
entity key to the current state (`none` if no `E`/`D` was seen yet). -/
def parseDeviceFlagsAux :
    List String → Option Bool → List (String × Option Bool) →
      Except Unit (List (String × Option Bool))
  | [], _, acc => .ok acc
  | f :: rest, state, acc =>
    if f = "E" then parseDeviceFlagsAux rest (some true) acc
    else if f = "D" then parseDeviceFlagsAux rest (some false) acc
    else
      match flagKey.lookup f with
      | none => .error ()
      | some key => parseDeviceFlagsAux rest state (dictSet acc key state)

/-- `parseDeviceFlags` on a flag string (entities.py, lines 9-71). -/
def parseDeviceFlags (flags : String) : Except Unit (List (String × Option Bool)) :=
  parseDeviceFlagsAux (flags.data.map Char.toString) none []

/-- `state_k`: the keys of the warning-indicator entities, in `ENTITIES`
declaration order (the source relies on dict order, not on the `warn_ind`
values). -/
def warnKeys : List String :=
  (ENTITIES.filter (fun e => e.2.warn_ind.isSome)).map Prod.fst

/-- The body of `parseWarnState`: `bool(int(v))` per token (a failing
`int` raises `ValueError`), zipped with `warnKeys` (`zip` truncates to the
shorter list). -/
def parseWarnStateTokens (toks : List String) : Except Unit (List (String × Bool)) :=
  match toks.mapM (fun t => (pyInt t).map (fun n => n != 0)) with
  | none => .error ()
  | some vs => .ok (warnKeys.zip vs)

/-- `parseWarnState` on a status string (entities.py, lines 74-107). -/
def parseWarnState (stat : String) : Except Unit (List (String × Bool)) :=
  parseWarnStateTokens (stat.data.map Char.toString)

/-- Look one indicator up in a parsed warning state. -/
def warnLookup (stat : String) (k : String) : Option Bool :=
  match parseWarnState stat with
  | .error _ => none
  | .ok m => m.lookup k

/-! ### Query dispatch (`QUERIES`) and `Axpert.query` / `Axpert.command` -/

/-- A query's `"def"` entry: either a positional entity-key list or one of
the custom parsers used in the table. -/
inductive QDef
  | keys (ks : List String)
  | devFlags   -- `parseDeviceFlags`
  | warnState  -- `parseWarnState`
  | toStr      -- the builtin `str`
deriving DecidableEq

def QPIRI_keys : List String :=
  ["grid_rate_v", "grid_rate_c", "ac_out_rate_v", "ac_out_rate_f", "ac_out_rate_c",
   "ac_out_rate_apar_p", "ac_out_rate_act_p", "bat_rate_v", "bat_util_fb_v",
   "bat_und_v", "bat_bulk_v", "bat_flt_v", "bat_type", "ac_chg_max_c", "chg_max_c",
   "ac_in_range_v", "out_src_pri", "chg_src_pri", "para_max_num", "inv_type",
   "topology", "out_mode", "bar_ret_v", "pv_para_ok", "pv_p_bal"]

def QPIGS_keys : List String :=
  ["grid_v", "grid_f", "ac_out_v", "ac_out_f", "ac_out_apar_p", "ac_out_act_p",
   "out_load_perc", "bus_v", "bat_v", "bat_chg_c", "bat_cap", "inv_temp",
   "pv_bat_cur", "pv_in_v", "bat_v_scc", "bat_dchg_c", "dev_stat", "unkwn_1",
   "unkwn_2", "pv_power", "unkwn_3"]

def QDI_keys : List String :=
  ["ac_out_v", "ac_out_f", "ac_chg_max_c", "bat_und_v", "chg_float_v", "chg_bulk_v",
   "bat_util_fb_v", "chg_max_c", "ac_in_range_v", "out_src_pri", "chg_src_pri",
   "bat_type", "alarm_en", "pwr_save_en", "ovld_rstr_en", "ovr_temp_rstr_en",
   "lcd_blght_en", "alrm_pri_src_int_en", "flt_code_rec_en", "ovrl_bypass_en",
   "lcd_rtn_en", "out_mode", "bar_ret_v", "pv_para_ok", "pv_p_bal"]

/-- The `QUERIES` table (entities.py, lines 504-609). -/
def QUERIES : List (String × QDef) :=
  [("QPI", .keys ["dev_prot_id"]),
   ("QID", .keys ["dev_serial"]),
   ("QVFW", .keys ["fw_ver"]),
   ("QVFW2", .keys ["fw2_ver"]),
   ("QPIRI", .keys QPIRI_keys),
   ("QFLAG", .devFlags),
   ("QPIGS", .keys QPIGS_keys),
   ("QMOD", .keys ["dev_mode"]),
   ("QPIWS", .warnState),
   ("QDI", .keys QDI_keys),
   ("QMCHGCR", .toStr),
   ("QMUCHGCR", .toStr),
   ("QBOOT", .toStr)]

/-- `str.encode("utf-8")` for the ASCII mnemonics of the protocol. -/
def strEncode (s : String) : List Nat :=
  s.data.map Char.toNat

/-- `bytes.decode("utf-8")` modelled as the byte-wise code-point map,
exact on the ASCII payloads the device produces. -/
def decodeBytes (bs : List Nat) : String :=
  String.mk (bs.map Char.ofNat)

/-- `str.split(" ")`: split on every single space byte, keeping empty
fields. -/
def splitBytes : List Nat → List (List Nat)
  | [] => [[]]
  | b :: rest =>
    if b = 32 then [] :: splitBytes rest
    else
      match splitBytes rest with
      | [] => [[b]]
      | f :: fs => (b :: f) :: fs

def splitFields (payload : List Nat) : List String :=
  (splitBytes payload).map decodeBytes

/-- The exceptions that can escape `Axpert.query`. -/
inductive QueryError
  | attrNone            -- `_sendRequest` returned `None`; `None.decode` raises `AttributeError`
  | unknownQuery        -- `ValueError("No query definition for ...")`
  | customError         -- exception escaping a custom parser (`ValueError`/`RuntimeError`)
  | fmtError (k : String)  -- `RuntimeError(f"Error formatting entity {k}")`
deriving DecidableEq

/-- The shapes `Axpert.query` can return: a formatted entity dict, the two
custom-parser dicts, or a plain string from a `str` definition. -/
inductive QueryResult
  | table (m : List (String × Value))
  | flags (m : List (String × Option Bool))
  | warns (m : List (String × Bool))
  | raw (s : String)
deriving DecidableEq

/-- Python `repr` of a list of strings, produced when a `str`-definition
query gets a multi-field response (`str(res)` on a list). -/
def pyReprStrList (fields : List String) : String :=
  "[" ++ String.intercalate ", " (fields.map (fun f => "'" ++ f ++ "'")) ++ "]"

/-- The decoding part of `Axpert.query` (axpert.py, lines 402-449), applied
to the transport result: decode and split the payload, *then* look the
query up (an unknown query raises only after the request/response cycle),
then either run the custom parser (a single field is passed as the bare
string, several as the list) or zip the key list with the fields (`zip`
truncates to the shorter side) and format. -/
def queryCore (qry : String) (add_units : Bool) (payload? : Option (List Nat)) :
    Except QueryError QueryResult :=
  match payload? with
  | none => .error .attrNone
  | some payload =>
    let fields := splitFields payload
    match QUERIES.lookup qry with
    | none => .error .unknownQuery
    | some (QDef.keys ks) =>
      match formatEntries add_units (ks.zip fields) with
      | .error k => .error (.fmtError k)
      | .ok m => .ok (.table m)
    | some QDef.devFlags =>
      let toks := if fields.length > 1 then fields
        else (fields.headD "").data.map Char.toString
      match parseDeviceFlagsAux toks none [] with
      | .error _ => .error .customError
      | .ok m => .ok (.flags m)
    | some QDef.warnState =>
      let toks := if fields.length > 1 then fields
        else (fields.headD "").data.map Char.toString
      match parseWarnStateTokens toks with
      | .error _ => .error .customError
      | .ok m => .ok (.warns m)
    | some QDef.toStr =>
      .ok (.raw (if fields.length > 1 then pyReprStrList fields else fields.headD ""))

/-- `Axpert.query`: one request/response cycle, then decoding. -/
def queryFn (port : Option Nat) (qry : String) (add_units : Bool)
    (reads : List (List Nat)) : Except QueryError QueryResult × List ChanEvent :=
  let sr := sendRequest port (strEncode qry) reads
  (queryCore qry add_units sr.1, sr.2)

/-- The decision part of `Axpert.command` (axpert.py, lines 451-474):
`None` from the transport makes `.decode` raise; otherwise the command
succeeded exactly when the decoded payload is `"ACK"`. -/
def commandCore (payload? : Option (List Nat)) : Except Unit Bool :=
  match payload? with
  | none => .error ()
  | some payload => .ok (decodeBytes payload == "ACK")

/-- `Axpert.command`: one request/response cycle, then the ACK check. -/
def commandFn (port : Option Nat) (cmd : String) (reads : List (List Nat)) :
    Except Unit Bool × List ChanEvent :=
  let sr := sendRequest port (strEncode cmd) reads
  (commandCore sr.1, sr.2)

/-! ### Command mnemonic generation (`COMMANDS`, entities.py 681-901) -/

/-- `COMMANDS["OVL_BP"]["cmd"]`: `lambda a: f"P{'E' if a else 'D'}b"`. -/
def cmd_OVL_BP (a : Bool) : String :=
  "P" ++ (if a then "E" else "D") ++ "b"

/-- `COMMANDS["PWR_SV"]["cmd"]`: the source builds the mnemonic with flag
letter `b` (its comment announces `PEj`/`PDj`, but the code says `b`). -/
def cmd_PWR_SV (a : Bool) : String :=
  "P" ++ (if a then "E" else "D") ++ "b"

/-! ### Claim theorems about query, command and the warning decoder -/

/-- C3 (amended): an unknown query id raises the unknown-query error only
*after* the full request/response cycle: with the port open, the channel
trace of the call is nonempty (the frame writes happen first).  The
hypothesis keeps the payload ASCII, where the byte-wise model of UTF-8
decoding is exact. -/
theorem query_unknown_raises_after_io (qry : String) (reads : List (List Nat))
    (p : List Nat)
    (hq : QUERIES.lookup qry = none)
    (hp : (sendRequest (some 0) (strEncode qry) reads).1 = some p)
    (_hascii : ∀ b ∈ p, b < 128) :
    (queryFn (some 0) qry false reads).1 = .error .unknownQuery ∧
    (queryFn (some 0) qry false reads).2 ≠ [] := by
  constructor
  · show queryCore qry false (sendRequest (some 0) (strEncode qry) reads).1 = _
    rw [hp]
    simp [queryCore, hq]
  · show (sendRequest (some 0) (strEncode qry) reads).2 ≠ []
    exact sendRequest_open_trace_ne_nil 0 _ reads

set_option maxRecDepth 10000 in
/-- C3 (counterexample to the claim as stated): with the port open and a
well-formed device response, querying the unknown id `"XXX"` does fail with
the unknown-query error, but only after channel I/O has occurred — the
event trace is nonempty, while the claim demands that no I/O occur. -/
theorem query_unknown_does_io_cex :
    (queryFn (some 0) "XXX" false [[40, 89] ++ calcCRC [40, 89] ++ [13]]).1
        = .error .unknownQuery ∧
    (queryFn (some 0) "XXX" false [[40, 89] ++ calcCRC [40, 89] ++ [13]]).2 ≠ [] := by
  constructor
  · decide
  · show (sendRequest (some 0) (strEncode "XXX") _).2 ≠ []
    exact sendRequest_open_trace_ne_nil 0 _ _

set_option maxRecDepth 10000 in
/-- Witness for `query_unknown_raises_after_io` on the unknown id `"XXX"`
with a device response whose payload is `"Y"`. -/
theorem query_unknown_raises_after_io_witness :
    QUERIES.lookup "XXX" = none ∧
    (sendRequest (some 0) (strEncode "XXX") [[40, 89] ++ calcCRC [40, 89] ++ [13]]).1
        = some [89] ∧
    ((queryFn (some 0) "XXX" false [[40, 89] ++ calcCRC [40, 89] ++ [13]]).1
        = .error .unknownQuery ∧
      (queryFn (some 0) "XXX" false [[40, 89] ++ calcCRC [40, 89] ++ [13]]).2 ≠ []) :=
  ⟨by decide, by decide,
    query_unknown_raises_after_io "XXX" _ [89] (by decide) (by decide) (by decide)⟩

/-- C6 (amended): a positional query whose decoded response has fewer raw
fields than the descriptor's key list does *not* fail: `zip` truncates the
key list, and when the zipped fields all format successfully the result is
a silently truncated table with exactly as many entries as there were raw
fields.  (Extra raw fields beyond the key list are likewise dropped by
`zip`.) -/
theorem query_short_fields_truncated (qry : String) (ks : List String)
    (reads : List (List Nat)) (p : List Nat) (m : List (String × Value))
    (hq : QUERIES.lookup qry = some (QDef.keys ks))
    (hp : (sendRequest (some 0) (strEncode qry) reads).1 = some p)
    (_hascii : ∀ b ∈ p, b < 128)
    (hshort : (splitFields p).length < ks.length)
    (hfmt : formatEntries false (ks.zip (splitFields p)) = .ok m) :
    (queryFn (some 0) qry false reads).1 = .ok (.table m) ∧
    m.length = (splitFields p).length := by
  constructor
  · show queryCore qry false (sendRequest (some 0) (strEncode qry) reads).1 = _
    rw [hp]
    simp only [queryCore, hq, hfmt]
  · rw [formatEntries_length false _ m hfmt, List.length_zip]
    exact Nat.min_eq_right (Nat.le_of_lt hshort)

set_option maxRecDepth 10000 in
/-- C6 (counterexample to the claim as stated): `QPIRI` expects 25 fields;
a response decoding to the single field `"230.0"` yields a successful,
silently truncated one-entry result instead of an error. -/
theorem query_short_fields_cex :
    QPIRI_keys.length = 25 ∧
    (splitFields (strEncode "230.0")).length = 1 ∧
    (queryFn (some 0) "QPIRI" false
        [[40, 50, 51, 48, 46, 48] ++ calcCRC [40, 50, 51, 48, 46, 48] ++ [13]]).1
      = .ok (.table [("grid_rate_v", Value.vFloat "230.0")]) :=
  ⟨by decide, by decide, by decide⟩

set_option maxRecDepth 10000 in
/-- Witness for `query_short_fields_truncated` at the `QPIRI` query with
single-field payload `"230.0"`. -/
theorem query_short_fields_truncated_witness :
    QUERIES.lookup "QPIRI" = some (QDef.keys QPIRI_keys) ∧
    ((queryFn (some 0) "QPIRI" false
        [[40, 50, 51, 48, 46, 48] ++ calcCRC [40, 50, 51, 48, 46, 48] ++ [13]]).1
        = .ok (.table [("grid_rate_v", Value.vFloat "230.0")]) ∧
      ([("grid_rate_v", Value.vFloat "230.0")] : List (String × Value)).length
        = (splitFields (strEncode "230.0")).length) :=
  ⟨by decide,
    query_short_fields_truncated "QPIRI" QPIRI_keys _ (strEncode "230.0")
      [("grid_rate_v", Value.vFloat "230.0")]
      (by decide) (by decide) (by decide) (by decide) (by decide)⟩

/-- The 32-character warning string with only index 15 set. -/
def warnStat15 : String := "00000000000000010000000000000000"

set_option maxRecDepth 10000 in
/-- C7 (code bug in the entity table): `parseWarnState` assigns indicators
by their position in `ENTITIES` declaration order, and `wi_res3` sits at
position 15 of that order — but its declared `warn_ind` is 28
(contradicting the table's own comment that `warn_ind` is the position in
the list, and duplicating `wi_mppt_ovr_w`'s 28).  On the string with only
index 15 set, the code maps `wi_res3` to `True` although character 28 of
the input is `'0'`. -/
theorem warnstate_wi_res3_divergence :
    (ENTITIES.lookup "wi_res3").bind (fun e => e.warn_ind) = some 28 ∧
    warnStat15.data.getD 28 'x' = '0' ∧
    warnLookup warnStat15 "wi_res3" = some true :=
  ⟨by decide, by decide, by decide⟩

/-- C8: when the request/response cycle yields a decoded payload, `command`
returns `True` exactly when the payload is the exact string `"ACK"`, and
any other payload — `"NAK"`, the empty string, anything else — produces
`False`, not an error.  The ASCII hypothesis keeps the byte-wise model of
UTF-8 decoding exact. -/
theorem command_ack_iff (port : Option Nat) (cmd : String) (reads : List (List Nat))
    (p : List Nat)
    (hp : (sendRequest port (strEncode cmd) reads).1 = some p)
    (_hascii : ∀ b ∈ p, b < 128) :
    ((commandFn port cmd reads).1 = .ok true ↔ decodeBytes p = "ACK") ∧
    (decodeBytes p ≠ "ACK" → (commandFn port cmd reads).1 = .ok false) := by
  have hcf : (commandFn port cmd reads).1 = .ok (decodeBytes p == "ACK") := by
    show commandCore (sendRequest port (strEncode cmd) reads).1 = _
    rw [hp]
    rfl
  constructor
  · rw [hcf]
    simp [beq_iff_eq]
  · intro h
    rw [hcf]
    simp [beq_iff_eq, h]

set_option maxRecDepth 10000 in
/-- Witness for `command_ack_iff` at command `"PEa"` with a device response
whose payload is `"ACK"`. -/
theorem command_ack_iff_witness :
    (sendRequest (some 0) (strEncode "PEa")
        [[40, 65, 67, 75] ++ calcCRC [40, 65, 67, 75] ++ [13]]).1
      = some [65, 67, 75] ∧
    (((commandFn (some 0) "PEa" [[40, 65, 67, 75] ++ calcCRC [40, 65, 67, 75] ++ [13]]).1
          = .ok true ↔ decodeBytes [65, 67, 75] = "ACK") ∧
      (decodeBytes [65, 67, 75] ≠ "ACK" →
        (commandFn (some 0) "PEa" [[40, 65, 67, 75] ++ calcCRC [40, 65, 67, 75] ++ [13]]).1
          = .ok false)) :=
  ⟨by decide,
    command_ack_iff (some 0) "PEa" _ [65, 67, 75] (by decide) (by decide)⟩

/-- C9: the mnemonic-generation rule of `PWR_SV` coincides with that of
`OVL_BP` for every boolean argument — `"PEb"` when enabled, `"PDb"` when
disabled — and never uses the power-saving flag letter `'j'`. -/
theorem pwr_sv_mnemonic_same_as_ovl_bp :
    (∀ a, cmd_PWR_SV a = cmd_OVL_BP a) ∧
    cmd_PWR_SV true = "PEb" ∧ cmd_PWR_SV false = "PDb" ∧
    ∀ a, 'j' ∉ (cmd_PWR_SV a).data :=
  ⟨fun a => by cases a <;> rfl, rfl, rfl, fun a => by cases a <;> decide⟩

end Axpert
